import Mathlib

/-!
Verification of the order/notification backend (khauvukhanh/backend-api).

The JavaScript route handlers are shallowly embedded as pure Lean functions
over an explicit database state `DB`.  Mongo documents become records,
`findById` / `findOne` become `List.find?`, and a thrown exception that is
caught by a handler's `catch` block becomes an explicit error constructor
carrying the HTTP status the handler responds with.
-/

/-- A catalog product (src/models/Product.js): id, name, price, stock.
Fields not consulted by the order/notification flows are omitted. -/
structure Product where
  id : Nat
  name : String
  price : Int
  stock : Nat
deriving Repr, DecidableEq

/-- One cart line: product reference, quantity, price captured at add time. -/
structure CartItem where
  product : Nat
  quantity : Nat
  price : Int
deriving Repr, DecidableEq

/-- A user's cart (src/models/Cart.js): owner, lines, stored total. -/
structure Cart where
  id : Nat
  user : Nat
  items : List CartItem
  totalAmount : Int
deriving Repr, DecidableEq

/-- One order line (src/models/Order.js orderItemSchema): frozen copy of a
cart line at order time. -/
structure OrderItem where
  product : Nat
  quantity : Nat
  price : Int
deriving Repr, DecidableEq

/-- An order (src/models/Order.js).  `status` and `paymentStatus` are kept
as strings exactly as the routes handle them; the schema enum lists are
`validStatuses` and `validPaymentStatuses` below. -/
structure Order where
  id : Nat
  user : Nat
  items : List OrderItem
  totalAmount : Int
  shippingAddress : String
  paymentMethod : String
  note : Option String
  status : String
  paymentStatus : String
deriving Repr, DecidableEq

/-- A notification row (src/models/Notification.js).  `dataOrderId` models
the `data.orderId` payload the order flows store. -/
structure Notification where
  id : Nat
  user : Nat
  title : String
  message : String
  ntype : String
  isRead : Bool
  dataOrderId : Option Nat
deriving Repr, DecidableEq

/-- The database state threaded through the handlers. -/
structure DB where
  products : List Product
  carts : List Cart
  orders : List Order
  notifications : List Notification
  nextOrderId : Nat
  nextNotificationId : Nat
deriving Repr, DecidableEq

/-- Order status enum of the Order schema and of the
`validStatuses` list in `router.put('/:id/status')`. -/
def validStatuses : List String :=
  ["pending", "processing", "shipped", "delivered", "cancelled"]

/-- Payment status enum of the Order schema (`paymentStatus`). -/
def validPaymentStatuses : List String :=
  ["pending", "completed", "failed"]

/-- A single-document write: replace the first list element satisfying `p`
with `u`, as Mongo's save / findOneAndUpdate touch exactly one document. -/
def updateFirst {α : Type} (p : α → Bool) (u : α) : List α → List α
  | [] => []
  | x :: xs => if p x then u :: xs else x :: updateFirst p u xs

/-- `Product.findById` over the embedded catalog. -/
def findProduct (db : DB) (pid : Nat) : Option Product :=
  db.products.find? (fun p => p.id = pid)

/-- `Cart.findOne({ user })` over the embedded cart store. -/
def findCart (db : DB) (userId : Nat) : Option Cart :=
  db.carts.find? (fun c => c.user = userId)

/-- Outcome of the stock-availability loop in `router.post('/')`
(src/routes/orderRoutes.js lines 317-325).  `missing` is the case where
`Product.findById` returned null and `product.stock` threw a TypeError. -/
inductive StockCheck where
  | ok : StockCheck
  | missing : StockCheck
  | insufficient (productName : String) : StockCheck
deriving Repr, DecidableEq

/-- The stock-availability loop: for each cart line re-fetch the product;
reading `.stock` on a null product throws (`missing`); a line with
`product.stock < item.quantity` aborts with the product's name. -/
def checkStock (products : List Product) : List CartItem → StockCheck
  | [] => .ok
  | item :: rest =>
    match products.find? (fun p => p.id = item.product) with
    | none => .missing
    | some p =>
      if p.stock < item.quantity then .insufficient p.name
      else checkStock products rest

/-- The guard `req.body.note && req.body.note.length > limit`. -/
def noteExceeds (note : Option String) (limit : Nat) : Bool :=
  match note with
  | some n => decide (n.length > limit)
  | none => false

/-- Result of `POST /api/orders` in src/routes/orderRoutes.js.
`created` responds 201; `emptyCart`, `insufficientStock` and `noteTooLong`
respond 400; `serverError` is the catch-all 500 from a thrown error. -/
inductive PlaceOrderResult where
  | created (o : Order) : PlaceOrderResult
  | emptyCart : PlaceOrderResult
  | insufficientStock (productName : String) : PlaceOrderResult
  | noteTooLong : PlaceOrderResult
  | serverError : PlaceOrderResult
deriving Repr, DecidableEq

/-- The `new Order({...})` expression shared by both order-creation
handlers: snapshot the cart lines (product id, quantity, captured price),
copy the cart's stored total, start in "pending"/"pending". -/
def mkOrderFromCart (db : DB) (userId : Nat) (addr pay : String)
    (note : Option String) (cart : Cart) : Order :=
  { id := db.nextOrderId
    user := userId
    items := cart.items.map (fun i =>
      { product := i.product, quantity := i.quantity, price := i.price })
    totalAmount := cart.totalAmount
    shippingAddress := addr
    paymentMethod := pay
    note := note
    status := "pending"
    paymentStatus := "pending" }

/-- `router.post('/')` of src/routes/orderRoutes.js (lines 309-376):
load the cart, run the stock check, validate the note, persist the order,
clear the cart (items to `[]`, total to `0`), attempt a best-effort push
notification (no durable write), respond 201 with the order.  Note that
the handler neither decrements any product's stock nor saves a
Notification row. -/
def placeOrder (db : DB) (userId : Nat) (shippingAddress paymentMethod : String)
    (note : Option String) : PlaceOrderResult × DB :=
  match findCart db userId with
  | none => (.emptyCart, db)
  | some cart =>
    if cart.items.length = 0 then (.emptyCart, db)
    else
      match checkStock db.products cart.items with
      | .missing => (.serverError, db)
      | .insufficient name => (.insufficientStock name, db)
      | .ok =>
        if noteExceeds note 100 then (.noteTooLong, db)
        else
          let order : Order := mkOrderFromCart db userId shippingAddress paymentMethod note cart
          let clearedCart : Cart := { cart with items := [], totalAmount := 0 }
          let db2 : DB :=
            { db with
              orders := db.orders ++ [order]
              nextOrderId := db.nextOrderId + 1
              carts := updateFirst (fun c => c.id = cart.id) clearedCart db.carts }
          (.created order, db2)

/-- `sendAndSaveNotification` (src/unnamed/part_004): persist a
Notification row, then attempt push delivery (push failure swallowed).
Returns the stored notification and the new state. -/
def sendAndSaveNotification (db : DB) (userId : Nat) (title message ntype : String)
    (dataOrderId : Option Nat) : Notification × DB :=
  let notif : Notification :=
    { id := db.nextNotificationId
      user := userId
      title := title
      message := message
      ntype := ntype
      isRead := false
      dataOrderId := dataOrderId }
  (notif, { db with
            notifications := db.notifications ++ [notif]
            nextNotificationId := db.nextNotificationId + 1 })

/-- Result of the duplicated `router.post('/')` in src/unnamed/part_000.
`missingFields`, `noteTooLong` and `emptyCart` respond 400;
`errorCreatingOrder` is the catch block's 500 "Error creating order". -/
inductive DupPlaceOrderResult where
  | created (o : Order) : DupPlaceOrderResult
  | missingFields : DupPlaceOrderResult
  | noteTooLong : DupPlaceOrderResult
  | emptyCart : DupPlaceOrderResult
  | errorCreatingOrder : DupPlaceOrderResult
deriving Repr, DecidableEq

/-- Whether every cart line's product resolves in the catalog: a line whose
populated `item.product` is null makes `item.product._id` throw. -/
def allProductsResolve (products : List Product) (items : List CartItem) : Bool :=
  items.all (fun i => (products.find? (fun p => p.id = i.product)).isSome)

/-- The duplicated `router.post('/')` of src/unnamed/part_000 (lines
191-241): validate presence of shippingAddress and paymentMethod, note
length at most 500, require a non-empty cart, persist the order, delete the
cart document, then call `sendAndSaveNotification` — an identifier the
module neither imports nor defines (its lines 1-8 import only
`sendNotification`), so the call throws a ReferenceError, the catch block
answers 500 "Error creating order", and the already-persisted order and the
already-deleted cart stay that way. -/
def placeOrderDup (db : DB) (userId : Nat)
    (shippingAddress paymentMethod : Option String) (note : Option String) :
    DupPlaceOrderResult × DB :=
  match shippingAddress, paymentMethod with
  | some addr, some pay =>
    if noteExceeds note 500 then (.noteTooLong, db)
    else
      match findCart db userId with
      | none => (.emptyCart, db)
      | some cart =>
        if cart.items.length = 0 then (.emptyCart, db)
        else if allProductsResolve db.products cart.items then
          let order : Order := mkOrderFromCart db userId addr pay note cart
          let db2 : DB :=
            { db with
              orders := db.orders ++ [order]
              nextOrderId := db.nextOrderId + 1
              carts := db.carts.eraseP (fun c => c.id = cart.id) }
          (.errorCreatingOrder, db2)
        else
          (.errorCreatingOrder, db)
  | _, _ => (.missingFields, db)

/-- Result of `PUT /api/orders/:id/status` (src/routes/orderRoutes.js lines
420-489).  `invalidStatus` and `notFound` both respond 400 there
(messages "Invalid status..." and "Order not found"). -/
inductive UpdateStatusResult where
  | ok (o : Order) : UpdateStatusResult
  | invalidStatus : UpdateStatusResult
  | notFound : UpdateStatusResult
deriving Repr, DecidableEq

/-- `router.put('/:id/status')`: validate the status against the five enum
values, `findOneAndUpdate({ _id, user })` — the filter includes the
requesting user, so a non-owner's order is not found — then best-effort
push and a durable Notification row of type "order". -/
def updateStatus (db : DB) (orderId userId : Nat) (status : String) :
    UpdateStatusResult × DB :=
  if (validStatuses.contains status) = false then (.invalidStatus, db)
  else
    match db.orders.find? (fun o => o.id = orderId && o.user = userId) with
    | none => (.notFound, db)
    | some order =>
      let updated : Order := { order with status := status }
      let db1 : DB :=
        { db with orders :=
            updateFirst (fun o => o.id = orderId && o.user = userId) updated db.orders }
      let notif : Notification :=
        { id := db1.nextNotificationId
          user := userId
          title := "Order Status Updated"
          message := "Your order #" ++ toString orderId ++
            " status has been updated to " ++ status
          ntype := "order"
          isRead := false
          dataOrderId := some orderId }
      let db2 : DB :=
        { db1 with
          notifications := db1.notifications ++ [notif]
          nextNotificationId := db1.nextNotificationId + 1 }
      (.ok updated, db2)

/-- Result of `PUT /api/orders/:id/payment` (src/routes/orderRoutes.js
lines 527-542).  `notFound` responds 404; `validationError` is the catch
block's 400 when `order.save()` rejects a paymentStatus outside the schema
enum. -/
inductive UpdatePaymentResult where
  | ok (o : Order) : UpdatePaymentResult
  | notFound : UpdatePaymentResult
  | validationError : UpdatePaymentResult
deriving Repr, DecidableEq

/-- `router.put('/:id/payment')`: `Order.findById(req.params.id)` — the
query does NOT filter by the requesting user — then assign
`order.paymentStatus` and save; the schema's enum rejects values outside
`validPaymentStatuses` and the save error is answered with 400, leaving
the stored order unchanged.  The `userId` of the authenticated requester
is never consulted. -/
def updatePaymentStatus (db : DB) (orderId : Nat) (_userId : Nat)
    (newPaymentStatus : String) : UpdatePaymentResult × DB :=
  match db.orders.find? (fun o => o.id = orderId) with
  | none => (.notFound, db)
  | some order =>
    if validPaymentStatuses.contains newPaymentStatus then
      let updated : Order := { order with paymentStatus := newPaymentStatus }
      (.ok updated,
       { db with orders := updateFirst (fun o => o.id = orderId) updated db.orders })
    else (.validationError, db)

/-- Decimal value of a digit character, if it is one. -/
def digitVal? (c : Char) : Option Nat :=
  if 48 ≤ c.toNat ∧ c.toNat ≤ 57 then some (c.toNat - 48) else none

/-- Parse a character list as a non-empty run of decimal digits. -/
def digitsToNat? : List Char → Option Nat → Option Nat
  | [], acc => acc
  | c :: cs, acc =>
    match digitVal? c, acc with
    | some d, some a => digitsToNat? cs (some (a * 10 + d))
    | some d, none => digitsToNat? cs (some d)
    | none, _ => none

/-- Mongoose's ObjectId cast of a route parameter, modelled over `Nat`
ids: a string of decimal digits casts, anything else (such as
"read-all") raises a CastError. -/
def castObjectId (s : String) : Option Nat := digitsToNat? s.data none

/-- Result of the mark-one-read handler `router.put('/:id')`
(src/routes/notificationRoutes.js lines 187-203).  `serverError` is the
catch block's 500, reached e.g. when the id segment fails the ObjectId
cast. -/
inductive MarkOneResult where
  | ok (n : Notification) : MarkOneResult
  | notFound : MarkOneResult
  | serverError : MarkOneResult
deriving Repr, DecidableEq

/-- `router.put('/:id')`: `findOneAndUpdate({ _id, user }, { isRead: true })`,
scoped to the requester; 404 when not owned; a CastError on the id falls
into the catch and answers 500. -/
def markNotificationRead (db : DB) (userId : Nat) (idSegment : String) :
    MarkOneResult × DB :=
  match castObjectId idSegment with
  | none => (.serverError, db)
  | some nid =>
    match db.notifications.find? (fun n => n.id = nid && n.user = userId) with
    | none => (.notFound, db)
    | some n =>
      let updated : Notification := { n with isRead := true }
      (.ok updated,
       { db with notifications :=
           updateFirst (fun m => m.id = nid && m.user = userId) updated db.notifications })

/-- `router.put('/read-all')`: `updateMany({ user, isRead: false },
{ isRead: true })`, then 200. -/
def markAllNotificationsRead (db : DB) (userId : Nat) : DB :=
  { db with notifications := db.notifications.map (fun n =>
      if n.user = userId && n.isRead = false then { n with isRead := true } else n) }

/-- One segment of a registered Express route pattern: a literal segment
or a `:param` segment (which matches any single segment). -/
inductive RouteSeg where
  | literal (s : String) : RouteSeg
  | param (name : String) : RouteSeg
deriving Repr, DecidableEq

/-- Whether a pattern segment matches a concrete path segment. -/
def segMatches : RouteSeg → String → Bool
  | .literal l, s => l = s
  | .param _, _ => true

/-- The PUT handlers a single-segment path under /api/notifications can
reach, with the captured parameter for the `:id` route. -/
inductive NotifPutHandler where
  | markOne (idSegment : String) : NotifPutHandler
  | markAll : NotifPutHandler
deriving Repr, DecidableEq

/-- The PUT routes of src/routes/notificationRoutes.js in registration
order: `put('/:id')` at line 187 is registered BEFORE `put('/read-all')`
at line 217. -/
def notifPutRoutes : List (RouteSeg × (String → NotifPutHandler)) :=
  [(RouteSeg.param "id", fun seg => NotifPutHandler.markOne seg),
   (RouteSeg.literal "read-all", fun _ => NotifPutHandler.markAll)]

/-- Express dispatch for `PUT /api/notifications/<seg>`: the first
registered route whose pattern matches the segment wins. -/
def dispatchNotifPut (seg : String) : Option NotifPutHandler :=
  match notifPutRoutes.find? (fun r => segMatches r.1 seg) with
  | none => none
  | some r => some (r.2 seg)

/-- Observable outcome of a routed `PUT /api/notifications/<seg>` request. -/
inductive NotifPutResult where
  | okOne (n : Notification) : NotifPutResult
  | okAll : NotifPutResult
  | notFound : NotifPutResult
  | serverError : NotifPutResult
  | noRoute : NotifPutResult
deriving Repr, DecidableEq

/-- A routed `PUT /api/notifications/<seg>` request: dispatch to the first
matching registered handler, then run it. -/
def putNotificationRoute (db : DB) (userId : Nat) (seg : String) :
    NotifPutResult × DB :=
  match dispatchNotifPut seg with
  | none => (.noRoute, db)
  | some (.markOne idSeg) =>
    match markNotificationRead db userId idSeg with
    | (.ok n, db2) => (.okOne n, db2)
    | (.notFound, db2) => (.notFound, db2)
    | (.serverError, db2) => (.serverError, db2)
  | some .markAll => (.okAll, markAllNotificationsRead db userId)

/-! ### Concrete example stores (the spec's worked example and variants) -/

/-- The spec example's product P1: price 10, stock 5. -/
def exampleProduct : Product := { id := 1, name := "P1", price := 10, stock := 5 }

/-- The spec example's cart: 2 units of P1 at captured price 10, total 20. -/
def exampleCart : Cart :=
  { id := 1, user := 1
    items := [{ product := 1, quantity := 2, price := 10 }]
    totalAmount := 20 }

/-- The spec example's initial state. -/
def exampleDB : DB :=
  { products := [exampleProduct], carts := [exampleCart]
    orders := [], notifications := []
    nextOrderId := 1, nextNotificationId := 1 }

/-- A cart demanding 7 units of P1 — more than its stock of 5. -/
def bigCart : Cart :=
  { id := 1, user := 1
    items := [{ product := 1, quantity := 7, price := 10 }]
    totalAmount := 70 }

/-- The example state with the over-demanding cart. -/
def bigDB : DB := { exampleDB with carts := [bigCart] }

/-- A cart whose single line references product id 2, absent from the
catalog. -/
def ghostCart : Cart :=
  { id := 1, user := 1
    items := [{ product := 2, quantity := 1, price := 10 }]
    totalAmount := 10 }

/-- The example state with the dangling-product cart. -/
def ghostDB : DB := { exampleDB with carts := [ghostCart] }

/-- An already-persisted order owned by user 1. -/
def exampleOrder : Order :=
  { id := 1, user := 1
    items := [{ product := 1, quantity := 2, price := 10 }]
    totalAmount := 20
    shippingAddress := "123 Main St"
    paymentMethod := "card"
    note := none
    status := "pending"
    paymentStatus := "pending" }

/-- A state holding just `exampleOrder`. -/
def orderDB : DB :=
  { products := [exampleProduct], carts := []
    orders := [exampleOrder], notifications := []
    nextOrderId := 2, nextNotificationId := 1 }

/-- A state holding one unread notification owned by user 1. -/
def notifDB : DB :=
  { products := [], carts := [], orders := []
    notifications := [{ id := 1, user := 1, title := "t", message := "m"
                        ntype := "order", isRead := false, dataOrderId := none }]
    nextOrderId := 1, nextNotificationId := 2 }

/-! ### Helper lemmas -/

/-- If every line's product resolves with sufficient stock, the stock
loop passes. -/
theorem checkStock_ok_of_sufficient (products : List Product)
    (items : List CartItem)
    (h : ∀ item ∈ items, ∃ p,
      products.find? (fun q => q.id = item.product) = some p ∧
      item.quantity ≤ p.stock) :
    checkStock products items = .ok := by
  induction items with
  | nil => rfl
  | cons item rest ih =>
    obtain ⟨p, hp, hle⟩ := h item (by simp)
    rw [checkStock, hp]
    simp only [Nat.not_lt.mpr hle, if_false]
    exact ih (fun i hi => h i (List.mem_cons_of_mem _ hi))

/-- If every line's product resolves and some line exceeds its product's
stock, the loop stops at the first such line with that product's name. -/
theorem checkStock_insufficient_exists (products : List Product)
    (items : List CartItem)
    (hall : ∀ item ∈ items,
      (products.find? (fun q => q.id = item.product)).isSome = true)
    (hex : ∃ item ∈ items, ∃ p,
      products.find? (fun q => q.id = item.product) = some p ∧
      p.stock < item.quantity) :
    ∃ name, checkStock products items = .insufficient name ∧
      ∃ item ∈ items, ∃ p,
        products.find? (fun q => q.id = item.product) = some p ∧
        p.name = name ∧ p.stock < item.quantity := by
  induction items with
  | nil => simp at hex
  | cons item rest ih =>
    obtain ⟨p, hp⟩ := Option.isSome_iff_exists.mp (hall item (by simp))
    by_cases hlt : p.stock < item.quantity
    · refine ⟨p.name, ?_, item, by simp, p, hp, rfl, hlt⟩
      rw [checkStock, hp]
      simp [hlt]
    · have hex' : ∃ i ∈ rest, ∃ q,
          products.find? (fun r => r.id = i.product) = some q ∧
          q.stock < i.quantity := by
        obtain ⟨i, hi, q, hq, hqlt⟩ := hex
        rcases List.mem_cons.mp hi with rfl | hi'
        · rw [hq] at hp
          cases hp
          exact absurd hqlt hlt
        · exact ⟨i, hi', q, hq, hqlt⟩
      obtain ⟨name, hcs, i, hi, q, hq, hqn, hqlt⟩ :=
        ih (fun i hi => hall i (List.mem_cons_of_mem _ hi)) hex'
      refine ⟨name, ?_, i, List.mem_cons_of_mem _ hi, q, hq, hqn, hqlt⟩
      rw [checkStock, hp]
      simp only [hlt, if_false]
      exact hcs

/-- If every resolving line has sufficient stock but some line's product
is absent, the loop hits the null product. -/
theorem checkStock_missing_of (products : List Product)
    (items : List CartItem)
    (hsuff : ∀ item ∈ items, ∀ p,
      products.find? (fun q => q.id = item.product) = some p →
      item.quantity ≤ p.stock)
    (hmiss : ∃ item ∈ items,
      products.find? (fun q => q.id = item.product) = none) :
    checkStock products items = .missing := by
  induction items with
  | nil => simp at hmiss
  | cons item rest ih =>
    cases hp : products.find? (fun q => q.id = item.product) with
    | none => rw [checkStock, hp]
    | some p =>
      have hle := hsuff item (by simp) p hp
      rw [checkStock, hp]
      simp only [Nat.not_lt.mpr hle, if_false]
      apply ih (fun i hi => hsuff i (List.mem_cons_of_mem _ hi))
      obtain ⟨i, hi, hin⟩ := hmiss
      rcases List.mem_cons.mp hi with rfl | hi'
      · rw [hin] at hp
        cases hp
      · exact ⟨i, hi', hin⟩

/-- An element of an `updateFirst` result is an old element or the newly
written document. -/
theorem mem_updateFirst {α : Type} {p : α → Bool} {u : α} {l : List α}
    {x : α} (hx : x ∈ updateFirst p u l) : x ∈ l ∨ x = u := by
  induction l with
  | nil => simp [updateFirst] at hx
  | cons y ys ih =>
    by_cases hy : p y = true
    · rw [updateFirst, if_pos hy] at hx
      rcases List.mem_cons.mp hx with rfl | hx'
      · exact Or.inr rfl
      · exact Or.inl (List.mem_cons_of_mem _ hx')
    · rw [updateFirst, if_neg hy] at hx
      rcases List.mem_cons.mp hx with rfl | hx'
      · exact Or.inl (by simp)
      · rcases ih hx' with h | h
        · exact Or.inl (List.mem_cons_of_mem _ h)
        · exact Or.inr h

/-- Success-path equation for `placeOrder`: with a non-empty cart, a
passing stock check and an acceptable note, the handler appends exactly
one order and overwrites the cart with its cleared copy. -/
theorem placeOrder_eq_of_ok (db : DB) (userId : Nat) (addr pay : String)
    (note : Option String) (cart : Cart)
    (hcart : findCart db userId = some cart)
    (hne : cart.items ≠ [])
    (hck : checkStock db.products cart.items = .ok)
    (hnote : noteExceeds note 100 = false) :
    placeOrder db userId addr pay note =
      (.created (mkOrderFromCart db userId addr pay note cart),
       { db with
         orders := db.orders ++ [mkOrderFromCart db userId addr pay note cart]
         nextOrderId := db.nextOrderId + 1
         carts := updateFirst (fun c => c.id = cart.id)
           { cart with items := [], totalAmount := 0 } db.carts }) := by
  have hlen : ¬ cart.items.length = 0 := by
    simpa [List.length_eq_zero] using hne
  rw [placeOrder, hcart]
  simp only [if_neg hlen, hck, hnote, Bool.false_eq_true, if_false]

/-- Abort-path equation for `placeOrder` when the stock loop reports an
insufficient line: 400 with the product's name, state untouched. -/
theorem placeOrder_eq_of_insufficient (db : DB) (userId : Nat)
    (addr pay : String) (note : Option String) (cart : Cart) (name : String)
    (hcart : findCart db userId = some cart)
    (hne : cart.items ≠ [])
    (hck : checkStock db.products cart.items = .insufficient name) :
    placeOrder db userId addr pay note = (.insufficientStock name, db) := by
  have hlen : ¬ cart.items.length = 0 := by
    simpa [List.length_eq_zero] using hne
  rw [placeOrder, hcart]
  simp only [if_neg hlen, hck]

/-- Abort-path equation for `placeOrder` when the stock loop dereferences
a null product: the thrown TypeError becomes the catch block's 500. -/
theorem placeOrder_eq_of_missing (db : DB) (userId : Nat)
    (addr pay : String) (note : Option String) (cart : Cart)
    (hcart : findCart db userId = some cart)
    (hne : cart.items ≠ [])
    (hck : checkStock db.products cart.items = .missing) :
    placeOrder db userId addr pay note = (.serverError, db) := by
  have hlen : ¬ cart.items.length = 0 := by
    simpa [List.length_eq_zero] using hne
  rw [placeOrder, hcart]
  simp only [if_neg hlen, hck]

/-- `placeOrder` never writes to the catalog: the products list — and
with it every stock value — comes back unchanged on every path. -/
theorem placeOrder_products_eq (db : DB) (userId : Nat) (addr pay : String)
    (note : Option String) :
    (placeOrder db userId addr pay note).2.products = db.products := by
  rw [placeOrder]
  cases findCart db userId with
  | none => rfl
  | some cart =>
    by_cases hlen : cart.items.length = 0
    · simp only [if_pos hlen]
    · simp only [if_neg hlen]
      cases checkStock db.products cart.items with
      | ok =>
        by_cases hnote : noteExceeds note 100 = true
        · simp only [hnote, if_true]
        · simp [hnote]
      | missing => rfl
      | insufficient name => rfl

/-- `placeOrder` never writes a Notification row on any path. -/
theorem placeOrder_notifications_eq (db : DB) (userId : Nat)
    (addr pay : String) (note : Option String) :
    (placeOrder db userId addr pay note).2.notifications = db.notifications := by
  rw [placeOrder]
  cases findCart db userId with
  | none => rfl
  | some cart =>
    by_cases hlen : cart.items.length = 0
    · simp only [if_pos hlen]
    · simp only [if_neg hlen]
      cases checkStock db.products cart.items with
      | ok =>
        by_cases hnote : noteExceeds note 100 = true
        · simp only [hnote, if_true]
        · simp [hnote]
      | missing => rfl
      | insufficient name => rfl

/-- After the cart found for `u` is overwritten with its cleared copy,
looking the user's cart up again yields the cleared copy. -/
theorem find?_updateFirst_clear (l : List Cart) (u : Nat) (cart : Cart)
    (h : l.find? (fun c => c.user = u) = some cart) :
    (updateFirst (fun c => c.id = cart.id)
        { cart with items := [], totalAmount := 0 } l).find?
      (fun c => c.user = u) = some { cart with items := [], totalAmount := 0 } := by
  have huser : cart.user = u := by
    have := List.find?_some h
    simpa using this
  induction l with
  | nil => simp at h
  | cons c rest ih =>
    by_cases hc : c.user = u
    · have hcc : cart = c := by
        rw [List.find?_cons_of_pos _ (by simpa using hc)] at h
        exact (Option.some_injective _ h).symm
      subst hcc
      rw [updateFirst, if_pos (by simp)]
      exact List.find?_cons_of_pos _ (by simpa using huser)
    · have h' : rest.find? (fun c => c.user = u) = some cart := by
        rw [List.find?_cons_of_neg _ (by simpa using hc)] at h
        exact h
      by_cases hid : c.id = cart.id
      · rw [updateFirst, if_pos (by simpa using hid)]
        exact List.find?_cons_of_pos _ (by simpa using huser)
      · rw [updateFirst, if_neg (by simpa using hid)]
        rw [List.find?_cons_of_neg _ (by simpa using hc)]
        exact ih h'

/-- The orders list after `updateStatus` is either untouched or the
single-document overwrite of the found order with its status changed. -/
theorem updateStatus_orders_cases (db : DB) (orderId userId : Nat)
    (s : String) :
    (updateStatus db orderId userId s).2.orders = db.orders ∨
    ∃ order, db.orders.find? (fun o => o.id = orderId && o.user = userId) = some order ∧
      (updateStatus db orderId userId s).2.orders =
        updateFirst (fun o => o.id = orderId && o.user = userId)
          { order with status := s } db.orders := by
  rw [updateStatus]
  by_cases hv : (validStatuses.contains s) = false
  · rw [if_pos hv]
    exact Or.inl rfl
  · rw [if_neg hv]
    cases hf : db.orders.find? (fun o => o.id = orderId && o.user = userId) with
    | none => exact Or.inl rfl
    | some order => exact Or.inr ⟨order, rfl, rfl⟩

/-- The orders list after `updatePaymentStatus` is either untouched or the
single-document overwrite of the found order with its payment status
changed. -/
theorem updatePaymentStatus_orders_cases (db : DB) (orderId userId : Nat)
    (s : String) :
    (updatePaymentStatus db orderId userId s).2.orders = db.orders ∨
    ∃ order, db.orders.find? (fun o => o.id = orderId) = some order ∧
      (updatePaymentStatus db orderId userId s).2.orders =
        updateFirst (fun o => o.id = orderId)
          { order with paymentStatus := s } db.orders := by
  rw [updatePaymentStatus]
  cases hf : db.orders.find? (fun o => o.id = orderId) with
  | none => exact Or.inl rfl
  | some order =>
    by_cases hv : validPaymentStatuses.contains s = true
    · refine Or.inr ⟨order, rfl, ?_⟩
      dsimp only
      rw [if_pos hv]
    · refine Or.inl ?_
      dsimp only
      rw [if_neg hv]

/-- `updatePaymentStatus` never writes a Notification row. -/
theorem updatePaymentStatus_notifications_eq (db : DB) (orderId userId : Nat)
    (s : String) :
    (updatePaymentStatus db orderId userId s).2.notifications = db.notifications := by
  rw [updatePaymentStatus]
  cases hf : db.orders.find? (fun o => o.id = orderId) with
  | none => rfl
  | some order =>
    by_cases hv : validPaymentStatuses.contains s = true
    · dsimp only
      rw [if_pos hv]
    · dsimp only
      rw [if_neg hv]

/-! ### Claim theorems -/

/-- C1: the claim says a successful placeOrder decrements each ordered
product's stock (the spec example expects stock 5 to become 3).  The code
contains no stock write at all: on the spec's own example the placement
succeeds yet P1's stock is still 5, and in general the products list is
returned unchanged on every path of `placeOrder`. -/
theorem C1_stock_never_decremented :
    (placeOrder exampleDB 1 "123 Main St / City / ST / 00000" "card" none).1 =
      .created (mkOrderFromCart exampleDB 1 "123 Main St / City / ST / 00000"
        "card" none exampleCart) ∧
    (placeOrder exampleDB 1 "123 Main St / City / ST / 00000" "card"
      none).2.products.map Product.stock = [5] ∧
    ∀ (db : DB) (u : Nat) (a p : String) (n : Option String),
      (placeOrder db u a p n).2.products = db.products :=
  ⟨rfl, rfl, placeOrder_products_eq⟩

/-- C2: for a non-empty cart whose every line has sufficient live stock
(and a well-formed request), placeOrder appends exactly one order whose
totalAmount is the cart's stored total and whose line prices are the
cart's captured prices, and afterwards the user's cart has no lines and
total zero. -/
theorem C2_placeOrder_success_spec (db : DB) (userId : Nat)
    (addr pay : String) (note : Option String) (cart : Cart)
    (hcart : findCart db userId = some cart)
    (hne : cart.items ≠ [])
    (hstock : ∀ item ∈ cart.items, ∃ p,
      db.products.find? (fun q => q.id = item.product) = some p ∧
      item.quantity ≤ p.stock)
    (hnote : noteExceeds note 100 = false) :
    ∃ order : Order,
      placeOrder db userId addr pay note =
        (.created order,
         { db with
           orders := db.orders ++ [order]
           nextOrderId := db.nextOrderId + 1
           carts := updateFirst (fun c => c.id = cart.id)
             { cart with items := [], totalAmount := 0 } db.carts }) ∧
      order.totalAmount = cart.totalAmount ∧
      order.items.map OrderItem.price = cart.items.map CartItem.price ∧
      findCart (placeOrder db userId addr pay note).2 userId =
        some { cart with items := [], totalAmount := 0 } := by
  have hck := checkStock_ok_of_sufficient db.products cart.items hstock
  have heq := placeOrder_eq_of_ok db userId addr pay note cart hcart hne hck hnote
  refine ⟨mkOrderFromCart db userId addr pay note cart, heq, rfl, ?_, ?_⟩
  · simp [mkOrderFromCart, Function.comp]
  · rw [heq]
    exact find?_updateFirst_clear db.carts userId cart hcart

/-- C2 witness: the spec's worked example instantiates the success
theorem. -/
theorem C2_placeOrder_success_witness :
    ∃ order : Order,
      placeOrder exampleDB 1 "123 Main St" "card" none =
        (.created order,
         { exampleDB with
           orders := exampleDB.orders ++ [order]
           nextOrderId := exampleDB.nextOrderId + 1
           carts := updateFirst (fun c => c.id = exampleCart.id)
             { exampleCart with items := [], totalAmount := 0 } exampleDB.carts }) ∧
      order.totalAmount = exampleCart.totalAmount ∧
      order.items.map OrderItem.price = exampleCart.items.map CartItem.price ∧
      findCart (placeOrder exampleDB 1 "123 Main St" "card" none).2 1 =
        some { exampleCart with items := [], totalAmount := 0 } :=
  C2_placeOrder_success_spec exampleDB 1 "123 Main St" "card" none exampleCart
    rfl (by decide)
    (by
      intro item hi
      have hitem : item = { product := 1, quantity := 2, price := 10 } := by
        simpa [exampleCart] using hi
      subst hitem
      exact ⟨exampleProduct, rfl, by decide⟩)
    rfl

/-- C3: a cart containing a line whose quantity exceeds the product's
live stock (earlier lines resolving) makes placeOrder fail with
InsufficientStock carrying the name of an offending product, with the
state — orders and stock included — unchanged. -/
theorem C3_insufficient_stock_spec (db : DB) (userId : Nat)
    (addr pay : String) (note : Option String) (cart : Cart)
    (hcart : findCart db userId = some cart)
    (hne : cart.items ≠ [])
    (hall : ∀ item ∈ cart.items,
      (db.products.find? (fun q => q.id = item.product)).isSome = true)
    (hex : ∃ item ∈ cart.items, ∃ p,
      db.products.find? (fun q => q.id = item.product) = some p ∧
      p.stock < item.quantity) :
    ∃ name, placeOrder db userId addr pay note = (.insufficientStock name, db) ∧
      ∃ item ∈ cart.items, ∃ p,
        db.products.find? (fun q => q.id = item.product) = some p ∧
        p.name = name ∧ p.stock < item.quantity := by
  obtain ⟨name, hcs, hprop⟩ :=
    checkStock_insufficient_exists db.products cart.items hall hex
  exact ⟨name,
    placeOrder_eq_of_insufficient db userId addr pay note cart name hcart hne hcs,
    hprop⟩

/-- C3 witness: a cart demanding 7 units of P1 (stock 5) aborts with
InsufficientStock and leaves the state untouched. -/
theorem C3_insufficient_stock_witness :
    ∃ name, placeOrder bigDB 1 "123 Main St" "card" none =
        (.insufficientStock name, bigDB) ∧
      ∃ item ∈ bigCart.items, ∃ p,
        bigDB.products.find? (fun q => q.id = item.product) = some p ∧
        p.name = name ∧ p.stock < item.quantity :=
  C3_insufficient_stock_spec bigDB 1 "123 Main St" "card" none bigCart
    rfl (by decide) (by decide)
    ⟨{ product := 1, quantity := 7, price := 10 }, by decide,
      exampleProduct, rfl, by decide⟩

/-- C4 counterexample: on the spec's example the placement succeeds, yet
zero Notification rows exist afterwards — not the claimed exactly one of
type "order" for the user. -/
theorem C4_no_notification_counterexample :
    (∃ o, (placeOrder exampleDB 1 "123 Main St" "card" none).1 = .created o) ∧
    (placeOrder exampleDB 1 "123 Main St" "card" none).2.notifications = [] :=
  ⟨⟨_, rfl⟩, rfl⟩

/-- C4 amended: after placeOrder — successful or not — the durable
notification store is exactly as before; the handler only attempts a
best-effort push and never persists a Notification row. -/
theorem C4_placeOrder_persists_no_notification (db : DB) (userId : Nat)
    (addr pay : String) (note : Option String) :
    (placeOrder db userId addr pay note).2.notifications = db.notifications :=
  placeOrder_notifications_eq db userId addr pay note

/-- C10: a cart line referencing a product id absent from the catalog
(all resolving lines having sufficient stock) makes the stock loop read
`.stock` of null; the thrown error is answered with the catch block's 500
and no order is created — the state is unchanged. -/
theorem C10_missing_product_500 (db : DB) (userId : Nat)
    (addr pay : String) (note : Option String) (cart : Cart)
    (hcart : findCart db userId = some cart)
    (hne : cart.items ≠ [])
    (hsuff : ∀ item ∈ cart.items, ∀ p,
      db.products.find? (fun q => q.id = item.product) = some p →
      item.quantity ≤ p.stock)
    (hmiss : ∃ item ∈ cart.items,
      db.products.find? (fun q => q.id = item.product) = none) :
    placeOrder db userId addr pay note = (.serverError, db) := by
  have hck := checkStock_missing_of db.products cart.items hsuff hmiss
  exact placeOrder_eq_of_missing db userId addr pay note cart hcart hne hck

/-- C10 witness: a cart whose only line references the absent product id
2 makes placeOrder answer 500 with the state untouched. -/
theorem C10_missing_product_witness :
    placeOrder ghostDB 1 "123 Main St" "card" none = (.serverError, ghostDB) :=
  C10_missing_product_500 ghostDB 1 "123 Main St" "card" none ghostCart
    rfl (by decide)
    (by
      intro item hi p hp
      have hitem : item = { product := 2, quantity := 1, price := 10 } := by
        simpa [ghostCart] using hi
      subst hitem
      have hnone : (none : Option Product) = some p := hp
      cases hnone)
    ⟨{ product := 2, quantity := 1, price := 10 }, by decide, rfl⟩

/-- C5: in the duplicated handler of src/unnamed/part_000, any request
that persists the Order and deletes the Cart then hits the undefined
identifier `sendAndSaveNotification`; the catch answers 500 "Error
creating order" while the Order stays persisted and the Cart stays
deleted. -/
theorem C5_dup_handler_500_after_persist (db : DB) (userId : Nat)
    (addr pay : String) (note : Option String) (cart : Cart)
    (hcart : findCart db userId = some cart)
    (hne : cart.items ≠ [])
    (hres : allProductsResolve db.products cart.items = true)
    (hnote : noteExceeds note 500 = false) :
    placeOrderDup db userId (some addr) (some pay) note =
      (.errorCreatingOrder,
       { db with
         orders := db.orders ++ [mkOrderFromCart db userId addr pay note cart]
         nextOrderId := db.nextOrderId + 1
         carts := db.carts.eraseP (fun c => c.id = cart.id) }) := by
  have hlen : ¬ cart.items.length = 0 := by
    simpa [List.length_eq_zero] using hne
  rw [placeOrderDup]
  dsimp only
  rw [if_neg (by simp [hnote]), hcart]
  dsimp only
  rw [if_neg hlen, if_pos hres]

/-- C5 witness: the spec example run through the duplicated handler — the
caller receives the 500 error although the order exists and the cart is
gone. -/
theorem C5_dup_handler_witness :
    placeOrderDup exampleDB 1 (some "123 Main St") (some "card") none =
      (.errorCreatingOrder,
       { exampleDB with
         orders := exampleDB.orders ++
           [mkOrderFromCart exampleDB 1 "123 Main St" "card" none exampleCart]
         nextOrderId := exampleDB.nextOrderId + 1
         carts := exampleDB.carts.eraseP (fun c => c.id = exampleCart.id) }) :=
  C5_dup_handler_500_after_persist exampleDB 1 "123 Main St" "card" none
    exampleCart rfl (by decide) (by decide) rfl

/-- C6 counterexample: the order with id 1 belongs to user 1, yet the
call on behalf of requester 2 succeeds instead of failing with NotFound —
`updatePaymentStatus` never consults the requesting user. -/
theorem C6_ownership_not_checked_counterexample :
    exampleOrder.user ≠ 2 ∧
    (updatePaymentStatus orderDB 1 2 "completed").1 =
      .ok { exampleOrder with paymentStatus := "completed" } :=
  ⟨by decide, rfl⟩

/-- C6 amended: updatePaymentStatus validates the new payment status
against the schema enum (invalid values fail with the order unchanged),
fails with NotFound exactly when no order with that id exists at all —
ownership is NOT checked, unlike updateStatus — and creates no
notification side effect. -/
theorem C6_updatePaymentStatus_amended (db : DB) (orderId requester : Nat)
    (s : String) :
    (db.orders.find? (fun o => o.id = orderId) = none →
      updatePaymentStatus db orderId requester s = (.notFound, db)) ∧
    (∀ order, db.orders.find? (fun o => o.id = orderId) = some order →
      validPaymentStatuses.contains s = false →
      updatePaymentStatus db orderId requester s = (.validationError, db)) ∧
    (∀ order, db.orders.find? (fun o => o.id = orderId) = some order →
      validPaymentStatuses.contains s = true →
      updatePaymentStatus db orderId requester s =
        (.ok { order with paymentStatus := s },
         { db with orders :=
             (updateFirst (fun o => o.id = orderId) { order with paymentStatus := s } db.orders) })) ∧
    (updatePaymentStatus db orderId requester s).2.notifications =
      db.notifications := by
  refine ⟨?_, ?_, ?_, updatePaymentStatus_notifications_eq db orderId requester s⟩
  · intro h
    rw [updatePaymentStatus, h]
  · intro order h hv
    rw [updatePaymentStatus, h]
    dsimp only
    rw [if_neg (by rw [hv]; simp)]
  · intro order h hv
    rw [updatePaymentStatus, h]
    dsimp only
    rw [if_pos hv]

/-- C6 witness: requester 5 owns nothing yet updates order 1; an absent
order id 2 gives NotFound; the off-enum value "bogus" is rejected with
the state unchanged. -/
theorem C6_updatePaymentStatus_witness :
    updatePaymentStatus orderDB 1 5 "completed" =
      (.ok { exampleOrder with paymentStatus := "completed" },
       { orderDB with orders :=
           (updateFirst (fun o => o.id = 1) { exampleOrder with paymentStatus := "completed" } orderDB.orders) }) ∧
    updatePaymentStatus orderDB 2 1 "completed" = (.notFound, orderDB) ∧
    updatePaymentStatus orderDB 1 1 "bogus" = (.validationError, orderDB) :=
  ⟨(C6_updatePaymentStatus_amended orderDB 1 5 "completed").2.2.1 exampleOrder rfl rfl,
   (C6_updatePaymentStatus_amended orderDB 2 1 "completed").1 rfl,
   (C6_updatePaymentStatus_amended orderDB 1 1 "bogus").2.1 exampleOrder rfl rfl⟩

/-- C7: `put('/:id')` is registered before `put('/read-all')`, so a
PUT /read-all request dispatches to the mark-one-read handler with id
segment "read-all"; the ObjectId cast fails, the response is the catch
block's 500, and no notification is touched — although the shadowed
mark-all-read handler would have changed the state. -/
theorem C7_read_all_route_shadowed :
    dispatchNotifPut "read-all" = some (.markOne "read-all") ∧
    putNotificationRoute notifDB 1 "read-all" = (.serverError, notifDB) ∧
    markAllNotificationsRead notifDB 1 ≠ notifDB :=
  ⟨rfl, by decide, by decide⟩

/-- C8: updateStatus with "shipped" on a pending order owned by the
requester answers with the order in status "shipped"; a requester owning
no order with that id gets NotFound with the state unchanged; a status
outside the five enum values gets InvalidStatus with the state
unchanged. -/
theorem C8_updateStatus_spec (db : DB) (orderId owner requester : Nat)
    (s : String) :
    (∀ order,
      db.orders.find? (fun o => o.id = orderId && o.user = owner) = some order →
      order.status = "pending" →
      (updateStatus db orderId owner "shipped").1 =
        .ok { order with status := "shipped" }) ∧
    ((∀ o ∈ db.orders, o.id = orderId → o.user ≠ requester) →
      validStatuses.contains s = true →
      updateStatus db orderId requester s = (.notFound, db)) ∧
    (validStatuses.contains s = false →
      updateStatus db orderId requester s = (.invalidStatus, db)) := by
  refine ⟨?_, ?_, ?_⟩
  · intro order h _
    rw [updateStatus, if_neg (by decide), h]
  · intro hnotowner hv
    have hf : db.orders.find?
        (fun o => o.id = orderId && o.user = requester) = none := by
      rw [List.find?_eq_none]
      intro o ho
      simp only [Bool.and_eq_true, decide_eq_true_eq, not_and]
      intro h1 h2
      exact hnotowner o ho h1 h2
    rw [updateStatus, if_neg (by rw [hv]; simp), hf]
  · intro hv
    rw [updateStatus, if_pos hv]

/-- C8 witness: owner 1 ships order 1; requester 2 gets NotFound; the
value "paid" is rejected as InvalidStatus. -/
theorem C8_updateStatus_witness :
    (updateStatus orderDB 1 1 "shipped").1 =
      .ok { exampleOrder with status := "shipped" } ∧
    updateStatus orderDB 1 2 "shipped" = (.notFound, orderDB) ∧
    updateStatus orderDB 1 1 "paid" = (.invalidStatus, orderDB) :=
  ⟨(C8_updateStatus_spec orderDB 1 1 2 "shipped").1 exampleOrder rfl rfl,
   (C8_updateStatus_spec orderDB 1 2 2 "shipped").2.1 (by decide) (by decide),
   (C8_updateStatus_spec orderDB 1 1 1 "paid").2.2 (by decide)⟩

/-- C9: every order present after updateStatus or updatePaymentStatus is,
in its items, totalAmount and user fields, an order that was already
present before — only status and paymentStatus can differ. -/
theorem C9_post_creation_immutability (db : DB) (orderId userId : Nat)
    (s ps : String) :
    (∀ o ∈ (updateStatus db orderId userId s).2.orders, ∃ o0 ∈ db.orders,
      o.id = o0.id ∧ o.items = o0.items ∧ o.totalAmount = o0.totalAmount ∧
      o.user = o0.user) ∧
    (∀ o ∈ (updatePaymentStatus db orderId userId ps).2.orders, ∃ o0 ∈ db.orders,
      o.id = o0.id ∧ o.items = o0.items ∧ o.totalAmount = o0.totalAmount ∧
      o.user = o0.user) := by
  constructor
  · intro o ho
    rcases updateStatus_orders_cases db orderId userId s with h | ⟨order, hf, h⟩
    · rw [h] at ho
      exact ⟨o, ho, rfl, rfl, rfl, rfl⟩
    · rw [h] at ho
      rcases mem_updateFirst ho with h1 | rfl
      · exact ⟨o, h1, rfl, rfl, rfl, rfl⟩
      · exact ⟨order, List.mem_of_find?_eq_some hf, rfl, rfl, rfl, rfl⟩
  · intro o ho
    rcases updatePaymentStatus_orders_cases db orderId userId ps with h | ⟨order, hf, h⟩
    · rw [h] at ho
      exact ⟨o, ho, rfl, rfl, rfl, rfl⟩
    · rw [h] at ho
      rcases mem_updateFirst ho with h1 | rfl
      · exact ⟨o, h1, rfl, rfl, rfl, rfl⟩
      · exact ⟨order, List.mem_of_find?_eq_some hf, rfl, rfl, rfl, rfl⟩

/-- C9 witness: the shipped copy of order 1 produced by updateStatus
matches an original order on items, totalAmount and user. -/
theorem C9_immutability_witness :
    ∃ o0 ∈ orderDB.orders,
      ({ exampleOrder with status := "shipped" } : Order).id = o0.id ∧
      ({ exampleOrder with status := "shipped" } : Order).items = o0.items ∧
      ({ exampleOrder with status := "shipped" } : Order).totalAmount =
        o0.totalAmount ∧
      ({ exampleOrder with status := "shipped" } : Order).user = o0.user :=
  (C9_post_creation_immutability orderDB 1 1 "shipped" "completed").1
    { exampleOrder with status := "shipped" } (by decide)
